import Mathlib

/-!
Shallow embedding of the `PolyCommitEquivalence` protocol
(`src/lib.rs`, `src/error.rs`): a proof system attesting that the same
polynomial was committed to under two different polynomial commitment
schemes.

Modelling decisions:
* Machine bytes are `Nat`; byte strings are `List Nat`.
* The two generic backends (`PC1`, `PC2` in the Rust trait bounds) become
  values of a capability record `PCScheme` bundling the associated opaque
  types (`CommitterKey`, `VerifierKey`, `Commitment`, `Randomness`,
  `Proof`, `Error`) together with `open`, `check`, the `ToBytes`
  serialization of commitments, and the `Debug` formatting of backend
  errors (used by `from_pc_error`).
* The ambient `thread_rng()` entropy is modelled by an explicit state type
  `Rng` threaded through the backend calls, mirroring how the single
  `&mut rng` is passed to both `open` (resp. both `check`) calls in order.
* `FiatShamirRng::<D>` is modelled as a state machine whose state records
  the seed, the absorbed bytes and a draw counter; the digest `D` becomes
  a deterministic squeeze function `FiatShamirHash` from that state to a
  field element.  This captures exactly the determinism contract the
  protocol relies on.
* Fallible Rust calls return `Except`.
-/

namespace CommitEquiv

/-- Models `std::io::Error` as an opaque payload (only its identity matters
to the protocol, which stores it inside `Error::FiatShamirError`). -/
abbrev IoErr := String

/-- `ark_poly::univariate::DensePolynomial`: a dense coefficient vector,
`coeffs[i]` the coefficient of `x^i`. -/
structure DensePolynomial (F : Type) where
  coeffs : List F

/-- Point evaluation of a dense polynomial (Horner scheme, mathematically
`∑ coeffs[i] * x^i`), as used by `polynomial.evaluate(&challenge_point)`. -/
def DensePolynomial.evaluate {F : Type} [Semiring F] (p : DensePolynomial F) (x : F) : F :=
  p.coeffs.foldr (fun c acc => c + x * acc) 0

/-- `ark_poly_commit::LabeledPolynomial`: a polynomial together with its
label, optional degree bound and optional hiding bound. -/
structure LabeledPolynomial (F : Type) where
  label : String
  polynomial : DensePolynomial F
  degree_bound : Option Nat
  hiding_bound : Option Nat

/-- `LabeledPolynomial::evaluate` delegates to the inner polynomial. -/
def LabeledPolynomial.evaluate {F : Type} [Semiring F] (p : LabeledPolynomial F) (x : F) : F :=
  p.polynomial.evaluate x

/-- `ark_poly_commit::LabeledCommitment`: a commitment together with its
label and optional degree bound; `commitment()` projects the raw value. -/
structure LabeledCommitment (C : Type) where
  label : String
  commitment : C
  degree_bound : Option Nat

/-- The digest `D` of `FiatShamirRng<D>`, abstracted as a deterministic
function from the rng state (seed, absorbed bytes, draw counter) to the
next squeezed field element.  Determinism of the concrete hash-based rng
is exactly this functional dependence. -/
structure FiatShamirHash (F : Type) where
  squeeze : List Nat → List Nat → Nat → F

/-- State of `ark_marlin::rng::FiatShamirRng`: the seed it was created
from, every byte absorbed so far (in order), and how many field elements
have been drawn. -/
structure FSRng where
  seed : List Nat
  absorbed : List Nat
  ctr : Nat

/-- `FiatShamirRng::from_seed`. -/
def FSRng.from_seed (s : List Nat) : FSRng :=
  { seed := s, absorbed := [], ctr := 0 }

/-- `FiatShamirRng::absorb`: appends bytes to the transcript. -/
def FSRng.absorb (r : FSRng) (bytes : List Nat) : FSRng :=
  { r with absorbed := r.absorbed ++ bytes }

/-- `E::Fr::rand(&mut fs_rng)`: squeeze one field element out of the
deterministic rng and advance the draw counter. -/
def FSRng.rand {F : Type} (Hd : FiatShamirHash F) (r : FSRng) : F × FSRng :=
  (Hd.squeeze r.seed r.absorbed r.ctr, { r with ctr := r.ctr + 1 })

/-- A polynomial commitment backend (`PC1` / `PC2` in the Rust generics):
the associated opaque types plus the operations the protocol core
consumes.  `commToBytes` is the `ToBytes` canonical serialization of a
commitment used by `to_bytes!`; `fmtErr` is the `Debug` formatting of a
backend error used by `from_pc_error`.  `Rng` is the state of the shared
`thread_rng`, threaded explicitly. -/
structure PCScheme (F Rng : Type) where
  CKey : Type
  VKey : Type
  Comm : Type
  Rand : Type
  OProof : Type
  Err : Type
  commToBytes : Comm → Except IoErr (List Nat)
  open_ : CKey → LabeledPolynomial F → LabeledCommitment Comm → F → F → Rand → Rng →
    Except Err OProof × Rng
  check : VKey → LabeledCommitment Comm → F → F → OProof → F → Rng →
    Except Err Bool × Rng
  fmtErr : Err → String

/-- `src/error.rs` `Error` enum. -/
inductive Error where
  | FiatShamirError (e : IoErr)
  | PolyCommitError (e : String)
  | KZGFailed
  | IPAFailed
  | PCError (error : String)
deriving DecidableEq

/-- `src/error.rs` `from_pc_error`: wraps the `Debug` rendering of a
backend error into `Error::PCError` (the `println!` side effect has no
functional content). -/
def from_pc_error {F Rng : Type} (pc : PCScheme F Rng) (e : pc.Err) : Error :=
  Error.PCError ("Polynomial Commitment Error: " ++ pc.fmtErr e)

/-- `Proof` struct of `src/lib.rs`: the claimed evaluation and the pair of
backend opening proofs.  Its type depends only on `E::Fr` and the two
backends' associated `Proof` types. -/
structure Proof (F OP1 OP2 : Type) where
  eval : F
  openings : OP1 × OP2
deriving DecidableEq

/-- `to_bytes!(commitments.0.commitment(), commitments.1.commitment())`:
serialize both raw commitments in order into one concatenated byte
string (no separator of any kind between the two), propagating the first
serialization failure. -/
def commitmentsToBytes {F Rng : Type} (pc1 pc2 : PCScheme F Rng)
    (c1 : LabeledCommitment pc1.Comm) (c2 : LabeledCommitment pc2.Comm) :
    Except IoErr (List Nat) := do
  let b1 ← pc1.commToBytes c1.commitment
  let b2 ← pc2.commToBytes c2.commitment
  pure (b1 ++ b2)

/-- Lines 67–74 of `src/lib.rs` (inside `prove`): seed a fresh
`FiatShamirRng` with `b""`, absorb the commitment bytes, and squeeze
`challenge_point` then `opening_challenge`, in that order. -/
def challengeDerivationProve {F : Type} (Hd : FiatShamirHash F) (bytes : List Nat) : F × F :=
  let fs_rng := FSRng.from_seed []
  let fs_rng := fs_rng.absorb bytes
  let (challenge_point, fs_rng) := fs_rng.rand Hd
  let (opening_challenge, _) := fs_rng.rand Hd
  (challenge_point, opening_challenge)

/-- Lines 121–127 of `src/lib.rs` (inside `verify`): the verifier's own
copy of the same derivation, rebuilt from the commitments alone. -/
def challengeDerivationVerify {F : Type} (Hd : FiatShamirHash F) (bytes : List Nat) : F × F :=
  let fs_rng := FSRng.from_seed []
  let fs_rng := fs_rng.absorb bytes
  let (challenge_point, fs_rng) := fs_rng.rand Hd
  let (opening_challenge, _) := fs_rng.rand Hd
  (challenge_point, opening_challenge)

/-- The challenge pair `prove` derives, as a function of the protocol
inputs it actually reads: the two raw commitment values (via their
serialization).  This is the composite of `commitmentsToBytes` with the
derivation of lines 67–74. -/
def proveDerivedChallenges {F Rng : Type} (pc1 pc2 : PCScheme F Rng) (Hd : FiatShamirHash F)
    (commitments : LabeledCommitment pc1.Comm × LabeledCommitment pc2.Comm) :
    Except IoErr (F × F) :=
  (commitmentsToBytes pc1 pc2 commitments.1 commitments.2).map
    (challengeDerivationProve Hd)

/-- The challenge pair `verify` derives (lines 121–127), likewise a
function of the two raw commitment values only — `verify`'s `proof`
argument never enters. -/
def verifyDerivedChallenges {F Rng : Type} (pc1 pc2 : PCScheme F Rng) (Hd : FiatShamirHash F)
    (commitments : LabeledCommitment pc1.Comm × LabeledCommitment pc2.Comm) :
    Except IoErr (F × F) :=
  (commitmentsToBytes pc1 pc2 commitments.1 commitments.2).map
    (challengeDerivationVerify Hd)

/-- `PolyCommitEquivalence::prove` (lines 55–108 of `src/lib.rs`).
`rng` is the fresh `thread_rng()` state; it is passed first to
`PC1::open` and the resulting state to `PC2::open`.  A `to_bytes!`
failure becomes `Error::FiatShamirError` (via `From<io::Error>`); an
`open` failure is mapped through `from_pc_error` and aborts the call. -/
def prove {F Rng : Type} [Semiring F] (pc1 pc2 : PCScheme F Rng) (Hd : FiatShamirHash F)
    (rng : Rng)
    (commit_keys : pc1.CKey × pc2.CKey)
    (polynomial : LabeledPolynomial F)
    (commitments : LabeledCommitment pc1.Comm × LabeledCommitment pc2.Comm)
    (randomnesses : pc1.Rand × pc2.Rand) :
    Except Error (Proof F pc1.OProof pc2.OProof) :=
  match commitmentsToBytes pc1 pc2 commitments.1 commitments.2 with
  | .error e => .error (Error.FiatShamirError e)
  | .ok bytes =>
    let (challenge_point, opening_challenge) := challengeDerivationProve Hd bytes
    let evaluation := polynomial.evaluate challenge_point
    match pc1.open_ commit_keys.1 polynomial commitments.1 challenge_point opening_challenge
        randomnesses.1 rng with
    | (.error e, _) => .error (from_pc_error pc1 e)
    | (.ok pc1_opening, rng1) =>
      match pc2.open_ commit_keys.2 polynomial commitments.2 challenge_point opening_challenge
          randomnesses.2 rng1 with
      | (.error e, _) => .error (from_pc_error pc2 e)
      | (.ok pc2_opening, _) =>
        .ok { eval := evaluation, openings := (pc1_opening, pc2_opening) }

/-- `PolyCommitEquivalence::verify` (lines 110–161 of `src/lib.rs`).
Rebuilds the transcript from the commitments, rederives both challenges,
then checks backend 1's opening and, only if it returned `Ok(true)`,
backend 2's.  `Ok(false)` becomes `KZGFailed` / `IPAFailed` respectively;
a check error is mapped through `from_pc_error`. -/
def verify {F Rng : Type} (pc1 pc2 : PCScheme F Rng) (Hd : FiatShamirHash F)
    (rng : Rng)
    (verifier_keys : pc1.VKey × pc2.VKey)
    (commitments : LabeledCommitment pc1.Comm × LabeledCommitment pc2.Comm)
    (proof : Proof F pc1.OProof pc2.OProof) :
    Except Error Unit :=
  match commitmentsToBytes pc1 pc2 commitments.1 commitments.2 with
  | .error e => .error (Error.FiatShamirError e)
  | .ok bytes =>
    let (challenge_point, opening_challenge) := challengeDerivationVerify Hd bytes
    match pc1.check verifier_keys.1 commitments.1 challenge_point proof.eval
        proof.openings.1 opening_challenge rng with
    | (.ok true, rng1) =>
      match pc2.check verifier_keys.2 commitments.2 challenge_point proof.eval
          proof.openings.2 opening_challenge rng1 with
      | (.ok true, _) => .ok ()
      | (.ok false, _) => .error Error.IPAFailed
      | (.error e, _) => .error (from_pc_error pc2 e)
    | (.ok false, _) => .error Error.KZGFailed
    | (.error e, _) => .error (from_pc_error pc1 e)

/-- The derived `CanonicalSerialize` for `Proof`: fields in declaration
order — `eval`, then the tuple `openings` (component 0 then component 1) —
each written with its own type's canonical serializer. -/
def Proof.encode {F OP1 OP2 : Type} (sF : F → List Nat) (s1 : OP1 → List Nat)
    (s2 : OP2 → List Nat) (p : Proof F OP1 OP2) : List Nat :=
  sF p.eval ++ s1 p.openings.1 ++ s2 p.openings.2

/-- The derived `CanonicalDeserialize` for `Proof`: reads the fields back
in the same fixed order, each with its own type's canonical deserializer
(which consumes a prefix of the byte stream and returns the rest). -/
def Proof.decode {F OP1 OP2 : Type} (dF : List Nat → Option (F × List Nat))
    (d1 : List Nat → Option (OP1 × List Nat)) (d2 : List Nat → Option (OP2 × List Nat))
    (bytes : List Nat) : Option (Proof F OP1 OP2 × List Nat) := do
  let (e, rest1) ← dF bytes
  let (o1, rest2) ← d1 rest1
  let (o2, rest3) ← d2 rest2
  pure ({ eval := e, openings := (o1, o2) }, rest3)

/-! ### Concrete instantiations used to witness the theorems below -/

/-- A concrete deterministic squeeze function over `F := Nat`. -/
def Hd0 : FiatShamirHash Nat :=
  { squeeze := fun _ absorbed i => absorbed.length + i }

/-- A trivial backend over `F := Nat`, `Rng := Unit`: serialization yields
no bytes, `open` always succeeds, `check` always accepts. -/
def trivPC : PCScheme Nat Unit where
  CKey := Unit
  VKey := Unit
  Comm := Unit
  Rand := Unit
  OProof := Unit
  Err := Unit
  commToBytes := fun _ => .ok []
  open_ := fun _ _ _ _ _ _ r => (.ok (), r)
  check := fun _ _ _ _ _ _ r => (.ok true, r)
  fmtErr := fun _ => ""

/-- Like `trivPC`, but `open` always fails with an error whose `Debug`
rendering is `"boom"`. -/
def failPC : PCScheme Nat Unit where
  CKey := Unit
  VKey := Unit
  Comm := Unit
  Rand := Unit
  OProof := Unit
  Err := Unit
  commToBytes := fun _ => .ok []
  open_ := fun _ _ _ _ _ _ r => (.error (), r)
  check := fun _ _ _ _ _ _ r => (.ok true, r)
  fmtErr := fun _ => "boom"

/-- Like `trivPC`, but `check` always returns `Ok(false)`. -/
def rejectPC : PCScheme Nat Unit where
  CKey := Unit
  VKey := Unit
  Comm := Unit
  Rand := Unit
  OProof := Unit
  Err := Unit
  commToBytes := fun _ => .ok []
  open_ := fun _ _ _ _ _ _ r => (.ok (), r)
  check := fun _ _ _ _ _ _ r => (.ok false, r)
  fmtErr := fun _ => ""

/-- A backend whose commitments are raw byte strings serialized as
themselves (used to exercise concatenation of commitment bytes). -/
def bytesPC : PCScheme Nat Unit where
  CKey := Unit
  VKey := Unit
  Comm := List Nat
  Rand := Unit
  OProof := Unit
  Err := Unit
  commToBytes := fun c => .ok c
  open_ := fun _ _ _ _ _ _ r => (.ok (), r)
  check := fun _ _ _ _ _ _ r => (.ok true, r)
  fmtErr := fun _ => ""

/-- A concrete labeled polynomial `1 + 2x`. -/
def poly0 : LabeledPolynomial Nat :=
  { label := "poly", polynomial := { coeffs := [1, 2] }, degree_bound := some 20,
    hiding_bound := some 1 }

/-- A concrete labeled commitment for the `Unit`-commitment backends. -/
def comm0 : LabeledCommitment Unit :=
  { label := "poly", commitment := (), degree_bound := some 20 }

/-! ### Shared helper lemmas -/

/-- Reduction of `commitmentsToBytes` when both serializations succeed:
the absorbed byte string is the plain concatenation. -/
theorem commitmentsToBytes_eq {F Rng : Type} (pc1 pc2 : PCScheme F Rng)
    (c1 : LabeledCommitment pc1.Comm) (c2 : LabeledCommitment pc2.Comm)
    {b1 b2 : List Nat} (hb1 : pc1.commToBytes c1.commitment = .ok b1)
    (hb2 : pc2.commToBytes c2.commitment = .ok b2) :
    commitmentsToBytes pc1 pc2 c1 c2 = .ok (b1 ++ b2) := by
  unfold commitmentsToBytes
  rw [hb1, hb2]
  rfl

/-- The verifier-side derivation (lines 121–127) is the same function of
the absorbed bytes as the prover-side derivation (lines 67–74). -/
theorem challengeDerivationVerify_eq_prove {F : Type} (Hd : FiatShamirHash F)
    (bytes : List Nat) :
    challengeDerivationVerify Hd bytes = challengeDerivationProve Hd bytes := rfl

/-- Unfolding of the prover-side derivation: seed `b""`, absorbed bytes
exactly the commitment bytes, draws number `0` then `1`. -/
theorem challengeDerivationProve_squeeze {F : Type} (Hd : FiatShamirHash F)
    (bytes : List Nat) :
    challengeDerivationProve Hd bytes = (Hd.squeeze [] bytes 0, Hd.squeeze [] bytes 1) := rfl

/-! ### Claim theorems -/

/-- C2: `verify` rebuilds the transcript from the commitments alone (empty
seed, absorb commitment bytes, squeeze `challenge_point` then
`opening_challenge`) and never from the proof — its derivation
(`challengeDerivationVerify`, `verifyDerivedChallenges`, neither of which
takes the proof as an argument) coincides with the prover-side derivation
on identical commitment inputs, and equals the squeeze of the absorbed
commitment bytes at draw indices `0` and `1`. -/
theorem verify_challenge_derivation_deterministic {F Rng : Type}
    (pc1 pc2 : PCScheme F Rng) (Hd : FiatShamirHash F) (bytes : List Nat)
    (commitments : LabeledCommitment pc1.Comm × LabeledCommitment pc2.Comm) :
    challengeDerivationVerify Hd bytes = challengeDerivationProve Hd bytes ∧
    challengeDerivationVerify Hd bytes = (Hd.squeeze [] bytes 0, Hd.squeeze [] bytes 1) ∧
    verifyDerivedChallenges pc1 pc2 Hd commitments =
      proveDerivedChallenges pc1 pc2 Hd commitments :=
  ⟨rfl, rfl, rfl⟩

/-- C6: whenever `prove` succeeds, the `eval` field of the returned proof
is the input polynomial evaluated at the `challenge_point` derived from
the transcript (the first squeezed field element). -/
theorem prove_eval_eq_evaluation {F Rng : Type} [Semiring F]
    (pc1 pc2 : PCScheme F Rng) (Hd : FiatShamirHash F) (rng : Rng)
    (ck : pc1.CKey × pc2.CKey) (poly : LabeledPolynomial F)
    (comms : LabeledCommitment pc1.Comm × LabeledCommitment pc2.Comm)
    (rands : pc1.Rand × pc2.Rand) (bytes : List Nat)
    (p : Proof F pc1.OProof pc2.OProof)
    (hbytes : commitmentsToBytes pc1 pc2 comms.1 comms.2 = .ok bytes)
    (hp : prove pc1 pc2 Hd rng ck poly comms rands = .ok p) :
    p.eval = poly.evaluate (challengeDerivationProve Hd bytes).1 := by
  rcases hzoc : challengeDerivationProve Hd bytes with ⟨z, oc⟩
  simp only [prove, hbytes, hzoc] at hp
  rcases ho1 : pc1.open_ ck.1 poly comms.1 z oc rands.1 rng with ⟨res1, rng1⟩
  rcases res1 with e1 | w1 <;> simp only [ho1] at hp
  · exact absurd hp (by simp)
  · rcases ho2 : pc2.open_ ck.2 poly comms.2 z oc rands.2 rng1 with ⟨res2, rng2⟩
    rcases res2 with e2 | w2
    · simp only [ho2] at hp
      exact absurd hp (by simp)
    · simp only [ho2] at hp
      injection hp with hp
      subst hp
      rfl

/-- Witness for C6 at the trivial backend: the proof returned has
`eval = poly0.evaluate 0 = 1`. -/
theorem prove_eval_eq_evaluation_witness :
    (⟨1, ((), ())⟩ : Proof Nat Unit Unit).eval =
      poly0.evaluate (challengeDerivationProve Hd0 []).1 :=
  prove_eval_eq_evaluation trivPC trivPC Hd0 () ((), ()) poly0 (comm0, comm0)
    ((), ()) [] ⟨1, ((), ())⟩ rfl rfl

/-- C4 (amended): if backend 1's `open` fails inside `prove`, `prove`
aborts immediately (backend 2's `open` result never enters the outcome)
and returns `Error::PCError` wrapping the backend error's formatted
message, with no partial proof and no retry; likewise, if backend 1's
`open` succeeds and backend 2's fails, `prove` returns the analogous
`PCError`.  The error value does not structurally identify which backend
failed — both paths produce the same `PCError` constructor (see the
counterexample). -/
theorem prove_open_failure_aborts {F Rng : Type} [Semiring F]
    (pc1 pc2 : PCScheme F Rng) (Hd : FiatShamirHash F) (rng : Rng)
    (ck : pc1.CKey × pc2.CKey) (poly : LabeledPolynomial F)
    (comms : LabeledCommitment pc1.Comm × LabeledCommitment pc2.Comm)
    (rands : pc1.Rand × pc2.Rand) (bytes : List Nat) (z oc : F)
    (hbytes : commitmentsToBytes pc1 pc2 comms.1 comms.2 = .ok bytes)
    (hzoc : challengeDerivationProve Hd bytes = (z, oc)) :
    (∀ e rng1, pc1.open_ ck.1 poly comms.1 z oc rands.1 rng = (.error e, rng1) →
      prove pc1 pc2 Hd rng ck poly comms rands =
        .error (Error.PCError ("Polynomial Commitment Error: " ++ pc1.fmtErr e))) ∧
    (∀ w1 rng1 e rng2, pc1.open_ ck.1 poly comms.1 z oc rands.1 rng = (.ok w1, rng1) →
      pc2.open_ ck.2 poly comms.2 z oc rands.2 rng1 = (.error e, rng2) →
      prove pc1 pc2 Hd rng ck poly comms rands =
        .error (Error.PCError ("Polynomial Commitment Error: " ++ pc2.fmtErr e))) := by
  constructor
  · intro e rng1 ho1
    simp only [prove, hbytes, hzoc, ho1, from_pc_error]
  · intro w1 rng1 e rng2 ho1 ho2
    simp only [prove, hbytes, hzoc, ho1, ho2, from_pc_error]

/-- Witness for C4 (amended): at the failing backend, `prove` returns the
wrapped `PCError` at once. -/
theorem prove_open_failure_aborts_witness :
    prove failPC trivPC Hd0 () ((), ()) poly0 (comm0, comm0) ((), ()) =
      .error (Error.PCError ("Polynomial Commitment Error: " ++ "boom")) :=
  (prove_open_failure_aborts failPC trivPC Hd0 () ((), ()) poly0 (comm0, comm0)
    ((), ()) [] 0 1 rfl rfl).1 () () rfl

/-- C4 counterexample: the claim that the failure returned by `prove`
identifies which backend failed is false.  With backend 1 failing (and
backend 2 trivially fine), and with backend 1 fine and backend 2 failing
— two runs in which different backends fail — `prove` returns the very
same `Error` value, so no function of the result can tell the failing
backend apart.  The last two conjuncts pin down which `open` fails in
each run. -/
theorem prove_backend_identification_counterexample :
    prove failPC trivPC Hd0 () ((), ()) poly0 (comm0, comm0) ((), ()) =
      .error (Error.PCError "Polynomial Commitment Error: boom") ∧
    prove trivPC failPC Hd0 () ((), ()) poly0 (comm0, comm0) ((), ()) =
      .error (Error.PCError "Polynomial Commitment Error: boom") ∧
    (failPC.open_ () poly0 comm0 0 1 () ()).1 = .error () ∧
    (trivPC.open_ () poly0 comm0 0 1 () ()).1 = .ok () := by
  refine ⟨?_, ?_, rfl, rfl⟩ <;> rfl

/-- C3: `verify` accepts (returns `Ok`) iff both backend `check` calls
return `Ok(true)` (the second run on the rng state left by the first);
`Ok(false)` from backend 1 yields `KZGFailed`, from backend 2 `IPAFailed`
(each rejection identifying its backend), and a check `Err` is propagated
through `from_pc_error`. -/
theorem verify_accept_iff {F Rng : Type} (pc1 pc2 : PCScheme F Rng)
    (Hd : FiatShamirHash F) (rng : Rng) (vk : pc1.VKey × pc2.VKey)
    (comms : LabeledCommitment pc1.Comm × LabeledCommitment pc2.Comm)
    (proof : Proof F pc1.OProof pc2.OProof) (bytes : List Nat) (z oc : F)
    (hbytes : commitmentsToBytes pc1 pc2 comms.1 comms.2 = .ok bytes)
    (hzoc : challengeDerivationVerify Hd bytes = (z, oc)) :
    (verify pc1 pc2 Hd rng vk comms proof = .ok () ↔
      ((pc1.check vk.1 comms.1 z proof.eval proof.openings.1 oc rng).1 = .ok true ∧
       (pc2.check vk.2 comms.2 z proof.eval proof.openings.2 oc
         (pc1.check vk.1 comms.1 z proof.eval proof.openings.1 oc rng).2).1 = .ok true)) ∧
    (∀ rng1, pc1.check vk.1 comms.1 z proof.eval proof.openings.1 oc rng = (.ok false, rng1) →
      verify pc1 pc2 Hd rng vk comms proof = .error Error.KZGFailed) ∧
    (∀ e rng1, pc1.check vk.1 comms.1 z proof.eval proof.openings.1 oc rng = (.error e, rng1) →
      verify pc1 pc2 Hd rng vk comms proof = .error (from_pc_error pc1 e)) ∧
    (∀ rng1 rng2, pc1.check vk.1 comms.1 z proof.eval proof.openings.1 oc rng = (.ok true, rng1) →
      pc2.check vk.2 comms.2 z proof.eval proof.openings.2 oc rng1 = (.ok false, rng2) →
      verify pc1 pc2 Hd rng vk comms proof = .error Error.IPAFailed) ∧
    (∀ e rng1 rng2, pc1.check vk.1 comms.1 z proof.eval proof.openings.1 oc rng = (.ok true, rng1) →
      pc2.check vk.2 comms.2 z proof.eval proof.openings.2 oc rng1 = (.error e, rng2) →
      verify pc1 pc2 Hd rng vk comms proof = .error (from_pc_error pc2 e)) := by
  rcases hc1 : pc1.check vk.1 comms.1 z proof.eval proof.openings.1 oc rng with ⟨res1, rng1⟩
  refine ⟨?_, ?_, ?_, ?_, ?_⟩
  · rcases res1 with e1 | b1
    · simp [verify, hbytes, hzoc, hc1]
    · rcases b1
      · simp [verify, hbytes, hzoc, hc1]
      · rcases hc2 : pc2.check vk.2 comms.2 z proof.eval proof.openings.2 oc rng1 with ⟨res2, rng2⟩
        rcases res2 with e2 | b2
        · simp [verify, hbytes, hzoc, hc1, hc2]
        · rcases b2 <;> simp [verify, hbytes, hzoc, hc1, hc2]
  · intro rng1h h
    injection h with h1 h2
    subst h1
    simp [verify, hbytes, hzoc, hc1]
  · intro e rng1h h
    injection h with h1 h2
    subst h1
    simp [verify, hbytes, hzoc, hc1]
  · intro rng1h rng2 h h2
    injection h with hres hrng
    subst hres
    subst hrng
    simp [verify, hbytes, hzoc, hc1, h2]
  · intro e rng1h rng2 h h2
    injection h with hres hrng
    subst hres
    subst hrng
    simp [verify, hbytes, hzoc, hc1, h2]

/-- Witness for C3: the trivial backends accept, via the iff at concrete
inputs where both checks return `Ok(true)`. -/
theorem verify_accept_iff_witness :
    commitmentsToBytes trivPC trivPC comm0 comm0 = .ok [] ∧
    challengeDerivationVerify Hd0 [] = (0, 1) ∧
    verify trivPC trivPC Hd0 () ((), ()) (comm0, comm0) ⟨1, ((), ())⟩ = .ok () :=
  ⟨rfl, rfl,
    (verify_accept_iff trivPC trivPC Hd0 () ((), ()) (comm0, comm0) ⟨1, ((), ())⟩
      [] 0 1 rfl rfl).1.mpr ⟨rfl, rfl⟩⟩

/-- C5: `verify` represents "proof cryptographically invalid" (a check
returned `Ok(false)`) by `KZGFailed` / `IPAFailed`, and "verification
could not be attempted" (a check returned `Err`) by `PCError`, and these
error values never overlap: no `PCError` payload equals `KZGFailed` or
`IPAFailed`, so a caller can always tell the two outcomes apart. -/
theorem verify_error_discrimination {F Rng : Type} (pc1 pc2 : PCScheme F Rng)
    (Hd : FiatShamirHash F) (rng : Rng) (vk : pc1.VKey × pc2.VKey)
    (comms : LabeledCommitment pc1.Comm × LabeledCommitment pc2.Comm)
    (proof : Proof F pc1.OProof pc2.OProof) (bytes : List Nat) (z oc : F)
    (hbytes : commitmentsToBytes pc1 pc2 comms.1 comms.2 = .ok bytes)
    (hzoc : challengeDerivationVerify Hd bytes = (z, oc)) :
    (∀ rng1, pc1.check vk.1 comms.1 z proof.eval proof.openings.1 oc rng = (.ok false, rng1) →
      verify pc1 pc2 Hd rng vk comms proof = .error Error.KZGFailed) ∧
    (∀ rng1 rng2, pc1.check vk.1 comms.1 z proof.eval proof.openings.1 oc rng = (.ok true, rng1) →
      pc2.check vk.2 comms.2 z proof.eval proof.openings.2 oc rng1 = (.ok false, rng2) →
      verify pc1 pc2 Hd rng vk comms proof = .error Error.IPAFailed) ∧
    (∀ e rng1, pc1.check vk.1 comms.1 z proof.eval proof.openings.1 oc rng = (.error e, rng1) →
      ∃ s, verify pc1 pc2 Hd rng vk comms proof = .error (Error.PCError s)) ∧
    (∀ e rng1 rng2, pc1.check vk.1 comms.1 z proof.eval proof.openings.1 oc rng = (.ok true, rng1) →
      pc2.check vk.2 comms.2 z proof.eval proof.openings.2 oc rng1 = (.error e, rng2) →
      ∃ s, verify pc1 pc2 Hd rng vk comms proof = .error (Error.PCError s)) ∧
    (∀ s, Error.KZGFailed ≠ Error.PCError s) ∧
    (∀ s, Error.IPAFailed ≠ Error.PCError s) := by
  refine ⟨?_, ?_, ?_, ?_, ?_, ?_⟩
  case refine_5 => intro s h; cases h
  case refine_6 => intro s h; cases h
  · intro rng1 h1
    simp [verify, hbytes, hzoc, h1]
  · intro rng1 rng2 h1 h2
    simp [verify, hbytes, hzoc, h1, h2]
  · intro e rng1 h1
    exact ⟨"Polynomial Commitment Error: " ++ pc1.fmtErr e,
      by simp [verify, hbytes, hzoc, h1, from_pc_error]⟩
  · intro e rng1 rng2 h1 h2
    exact ⟨"Polynomial Commitment Error: " ++ pc2.fmtErr e,
      by simp [verify, hbytes, hzoc, h1, h2, from_pc_error]⟩

/-- Witness for C5: with a backend whose check returns `Ok(false)`,
`verify` yields the rejection value `KZGFailed`. -/
theorem verify_error_discrimination_witness :
    verify rejectPC trivPC Hd0 () ((), ()) (comm0, comm0) ⟨1, ((), ())⟩ =
      .error Error.KZGFailed :=
  (verify_error_discrimination rejectPC trivPC Hd0 () ((), ()) (comm0, comm0)
    ⟨1, ((), ())⟩ [] 0 1 rfl rfl).1 () rfl

/-- C8: whenever backend 1's check returns `Ok(false)` or `Err`, `verify`
returns without invoking backend 2's check at all: the outcome is the
same for every possible backend-2 check function `f` — including ones
that would themselves reject or fail — and reflects only backend 1's
failure. -/
theorem verify_short_circuit {F Rng : Type} (pc1 pc2 : PCScheme F Rng)
    (Hd : FiatShamirHash F) (rng : Rng) (vk : pc1.VKey × pc2.VKey)
    (comms : LabeledCommitment pc1.Comm × LabeledCommitment pc2.Comm)
    (proof : Proof F pc1.OProof pc2.OProof) (bytes : List Nat) (z oc : F)
    (hbytes : commitmentsToBytes pc1 pc2 comms.1 comms.2 = .ok bytes)
    (hzoc : challengeDerivationVerify Hd bytes = (z, oc)) :
    (∀ rng1, pc1.check vk.1 comms.1 z proof.eval proof.openings.1 oc rng = (.ok false, rng1) →
      ∀ f, verify pc1 { pc2 with check := f } Hd rng vk comms proof =
        .error Error.KZGFailed) ∧
    (∀ e rng1, pc1.check vk.1 comms.1 z proof.eval proof.openings.1 oc rng = (.error e, rng1) →
      ∀ f, verify pc1 { pc2 with check := f } Hd rng vk comms proof =
        .error (from_pc_error pc1 e)) := by
  constructor
  · intro rng1 h1 f
    simp [verify, commitmentsToBytes] at hbytes ⊢
    simp [hbytes, hzoc, h1]
  · intro e rng1 h1 f
    simp [verify, commitmentsToBytes] at hbytes ⊢
    simp [hbytes, hzoc, h1, from_pc_error]

/-- Witness for C8: backend 1 rejects; replacing backend 2's check by one
that always errors changes nothing — `verify` still returns `KZGFailed`. -/
theorem verify_short_circuit_witness :
    verify rejectPC { trivPC with check := fun _ _ _ _ _ _ r => (.error (), r) }
      Hd0 () ((), ()) (comm0, comm0) ⟨1, ((), ())⟩ = .error Error.KZGFailed :=
  (verify_short_circuit rejectPC trivPC Hd0 () ((), ()) (comm0, comm0)
    ⟨1, ((), ())⟩ [] 0 1 rfl rfl).1 () rfl (fun _ _ _ _ _ _ r => (.error (), r))

/-- C1 (completeness): for a polynomial committed honestly under both
backends with matching randomness, if both backends' `open` calls succeed
and each backend's `check` accepts the opening it produced at the derived
challenge point against the polynomial's true evaluation there (the
backends' own completeness contracts), then `prove` returns the proof and
`verify` accepts it with `Ok`. -/
theorem prove_verify_completeness {F Rng : Type} [Semiring F]
    (pc1 pc2 : PCScheme F Rng) (Hd : FiatShamirHash F) (rngP rngV : Rng)
    (ck : pc1.CKey × pc2.CKey) (vk : pc1.VKey × pc2.VKey)
    (poly : LabeledPolynomial F)
    (comms : LabeledCommitment pc1.Comm × LabeledCommitment pc2.Comm)
    (rands : pc1.Rand × pc2.Rand) (bytes : List Nat) (z oc : F)
    (w1 : pc1.OProof) (w2 : pc2.OProof) (rng1 rng2 : Rng)
    (hbytes : commitmentsToBytes pc1 pc2 comms.1 comms.2 = .ok bytes)
    (hzoc : challengeDerivationProve Hd bytes = (z, oc))
    (ho1 : pc1.open_ ck.1 poly comms.1 z oc rands.1 rngP = (.ok w1, rng1))
    (ho2 : pc2.open_ ck.2 poly comms.2 z oc rands.2 rng1 = (.ok w2, rng2))
    (hc1 : ∀ r, (pc1.check vk.1 comms.1 z (poly.evaluate z) w1 oc r).1 = .ok true)
    (hc2 : ∀ r, (pc2.check vk.2 comms.2 z (poly.evaluate z) w2 oc r).1 = .ok true) :
    prove pc1 pc2 Hd rngP ck poly comms rands =
      .ok ⟨poly.evaluate z, (w1, w2)⟩ ∧
    verify pc1 pc2 Hd rngV vk comms ⟨poly.evaluate z, (w1, w2)⟩ = .ok () := by
  constructor
  · simp [prove, hbytes, hzoc, ho1, ho2]
  · have hzocV : challengeDerivationVerify Hd bytes = (z, oc) := by
      rw [challengeDerivationVerify_eq_prove, hzoc]
    rcases h1 : pc1.check vk.1 comms.1 z (poly.evaluate z) w1 oc rngV with ⟨res1, r1⟩
    have h1' := hc1 rngV
    rw [h1] at h1'
    simp only at h1'
    subst h1'
    rcases h2 : pc2.check vk.2 comms.2 z (poly.evaluate z) w2 oc r1 with ⟨res2, r2⟩
    have h2' := hc2 r1
    rw [h2] at h2'
    simp only at h2'
    subst h2'
    simp [verify, hbytes, hzocV, h1, h2]

/-- Witness for C1: every hypothesis holds at the trivial backends, and
`prove` / `verify` round-trip to acceptance. -/
theorem prove_verify_completeness_witness :
    prove trivPC trivPC Hd0 () ((), ()) poly0 (comm0, comm0) ((), ()) =
      .ok ⟨poly0.evaluate 0, ((), ())⟩ ∧
    verify trivPC trivPC Hd0 () ((), ()) (comm0, comm0) ⟨poly0.evaluate 0, ((), ())⟩ =
      .ok () :=
  prove_verify_completeness trivPC trivPC Hd0 () () ((), ()) ((), ()) poly0
    (comm0, comm0) ((), ()) [] 0 1 () () () () rfl rfl rfl rfl
    (fun _ => rfl) (fun _ => rfl)

/-- C7: the derived proof encoding writes `(eval, openings.0, openings.1)`
in that fixed order, each with its own canonical serializer, and decoding
inverts encoding: if each field serializer round-trips through its
deserializer, then `decode (encode p)` recovers exactly `p` with no bytes
left over. -/
theorem proof_encode_decode_roundtrip {F OP1 OP2 : Type}
    (sF : F → List Nat) (s1 : OP1 → List Nat) (s2 : OP2 → List Nat)
    (dF : List Nat → Option (F × List Nat)) (d1 : List Nat → Option (OP1 × List Nat))
    (d2 : List Nat → Option (OP2 × List Nat))
    (hF : ∀ v rest, dF (sF v ++ rest) = some (v, rest))
    (h1 : ∀ v rest, d1 (s1 v ++ rest) = some (v, rest))
    (h2 : ∀ v rest, d2 (s2 v ++ rest) = some (v, rest))
    (p : Proof F OP1 OP2) :
    Proof.decode dF d1 d2 (Proof.encode sF s1 s2 p) = some (p, []) := by
  have henc : Proof.encode sF s1 s2 p =
      sF p.eval ++ (s1 p.openings.1 ++ (s2 p.openings.2 ++ [])) := by
    simp [Proof.encode]
  rw [Proof.decode, henc, hF]
  simp only [Option.bind_eq_bind, Option.some_bind]
  rw [h1]
  simp only [Option.some_bind]
  rw [h2]
  rfl

/-- Witness for C7 at concrete serializers (`Nat` field elements encoded
as a single byte, `Unit` openings encoded as the empty string). -/
theorem proof_encode_decode_roundtrip_witness :
    Proof.decode (fun l => match l with | [] => none | x :: r => some (x, r))
      (fun l => some ((), l)) (fun l => some ((), l))
      (Proof.encode (fun n => [n]) (fun _ => []) (fun _ => [])
        (⟨5, ((), ())⟩ : Proof Nat Unit Unit)) =
      some (⟨5, ((), ())⟩, []) :=
  proof_encode_decode_roundtrip (fun n => [n]) (fun _ => []) (fun _ => [])
    (fun l => match l with | [] => none | x :: r => some (x, r))
    (fun l => some ((), l)) (fun l => some ((), l))
    (fun _ _ => rfl) (fun v _ => by cases v; rfl) (fun v _ => by cases v; rfl)
    ⟨5, ((), ())⟩

/-- C9: the derived `challenge_point` and `opening_challenge` depend only
on the two raw commitment values: the derivations (as performed inside
`prove` and inside `verify`) read nothing but
`commitments.0.commitment()` and `commitments.1.commitment()`, so changing
labels or degree-bound metadata — and, for `prove`, the polynomial, keys
or randomnesses, which do not enter the derivation at all — leaves both
challenges unchanged. -/
theorem challenges_depend_only_on_commitment_values {F Rng : Type}
    (pc1 pc2 : PCScheme F Rng) (Hd : FiatShamirHash F)
    (c1 c1' : LabeledCommitment pc1.Comm) (c2 c2' : LabeledCommitment pc2.Comm)
    (h1 : c1.commitment = c1'.commitment) (h2 : c2.commitment = c2'.commitment) :
    proveDerivedChallenges pc1 pc2 Hd (c1, c2) =
      proveDerivedChallenges pc1 pc2 Hd (c1', c2') ∧
    verifyDerivedChallenges pc1 pc2 Hd (c1, c2) =
      verifyDerivedChallenges pc1 pc2 Hd (c1', c2') := by
  constructor
  · simp [proveDerivedChallenges, commitmentsToBytes, h1, h2]
  · simp [verifyDerivedChallenges, commitmentsToBytes, h1, h2]

/-- Witness for C9: changing only labels and degree bounds of both
labeled commitments leaves the derived challenges identical. -/
theorem challenges_depend_only_on_commitment_values_witness :
    proveDerivedChallenges trivPC trivPC Hd0 (comm0, comm0) =
      proveDerivedChallenges trivPC trivPC Hd0
        (⟨"other", (), none⟩, ⟨"third", (), some 5⟩) ∧
    verifyDerivedChallenges trivPC trivPC Hd0 (comm0, comm0) =
      verifyDerivedChallenges trivPC trivPC Hd0
        (⟨"other", (), none⟩, ⟨"third", (), some 5⟩) :=
  challenges_depend_only_on_commitment_values trivPC trivPC Hd0 comm0
    ⟨"other", (), none⟩ comm0 ⟨"third", (), some 5⟩ rfl rfl

/-- C10: the two commitments are absorbed as one concatenated byte string
with no domain or length separation: any two commitment pairs whose
serializations concatenate to the same byte string derive identical
`challenge_point` and `opening_challenge`, even when the pairs split
those bytes differently between the two commitments. -/
theorem absorb_concatenation_no_separation {F Rng : Type}
    (pc1 pc2 : PCScheme F Rng) (Hd : FiatShamirHash F)
    (c1 c1' : LabeledCommitment pc1.Comm) (c2 c2' : LabeledCommitment pc2.Comm)
    (b1 b2 b1' b2' : List Nat)
    (hb1 : pc1.commToBytes c1.commitment = .ok b1)
    (hb2 : pc2.commToBytes c2.commitment = .ok b2)
    (hb1' : pc1.commToBytes c1'.commitment = .ok b1')
    (hb2' : pc2.commToBytes c2'.commitment = .ok b2')
    (hcat : b1 ++ b2 = b1' ++ b2') :
    proveDerivedChallenges pc1 pc2 Hd (c1, c2) =
      proveDerivedChallenges pc1 pc2 Hd (c1', c2') ∧
    verifyDerivedChallenges pc1 pc2 Hd (c1, c2) =
      verifyDerivedChallenges pc1 pc2 Hd (c1', c2') := by
  constructor
  · simp [proveDerivedChallenges, commitmentsToBytes_eq pc1 pc2 c1 c2 hb1 hb2,
      commitmentsToBytes_eq pc1 pc2 c1' c2' hb1' hb2', hcat]
  · simp [verifyDerivedChallenges, commitmentsToBytes_eq pc1 pc2 c1 c2 hb1 hb2,
      commitmentsToBytes_eq pc1 pc2 c1' c2' hb1' hb2', hcat]

/-- Witness for C10: splitting the byte string `[1, 2, 3]` as
`[1] ++ [2, 3]` or as `[1, 2] ++ [3]` between the two commitments yields
the same derived challenges. -/
theorem absorb_concatenation_no_separation_witness :
    proveDerivedChallenges bytesPC bytesPC Hd0
      (⟨"a", [1], none⟩, ⟨"b", [2, 3], none⟩) =
      proveDerivedChallenges bytesPC bytesPC Hd0
        (⟨"c", [1, 2], none⟩, ⟨"d", [3], none⟩) ∧
    verifyDerivedChallenges bytesPC bytesPC Hd0
      (⟨"a", [1], none⟩, ⟨"b", [2, 3], none⟩) =
      verifyDerivedChallenges bytesPC bytesPC Hd0
        (⟨"c", [1, 2], none⟩, ⟨"d", [3], none⟩) :=
  absorb_concatenation_no_separation bytesPC bytesPC Hd0
    ⟨"a", [1], none⟩ ⟨"c", [1, 2], none⟩ ⟨"b", [2, 3], none⟩ ⟨"d", [3], none⟩
    [1] [2, 3] [1, 2] [3] rfl rfl rfl rfl rfl

end CommitEquiv
